import Mathlib

set_option maxRecDepth 4000

/-!
Shallow embedding of `src/server.py` (MCP filesystem server, safe-by-default).

Paths are POSIX strings (`os.sep = "/"`).  The Python `os.path` helpers used by
the server (`abspath`, `join`, `normpath`, `relpath`, `basename`, `dirname`) are
embedded as executable functions on strings; `glob.fnmatch.fnmatch` is embedded
as a backtracking glob matcher.  Environment-derived configuration (`ROOT_DIR`,
the process working directory used by `abspath`, `ENABLE_RUN_COMMANDS`, the
timeout and output cap) is passed as explicit parameters.  The real filesystem
is modelled as an association list from absolute path to node kind, and process
execution as an oracle from the spawn request to the observed behaviour.
-/

/-- Python `str.startswith`. -/
def strStartsWith (s pre : String) : Bool := pre.toList.isPrefixOf s.toList

/-- Python `str.endswith`. -/
def strEndsWith (s suf : String) : Bool := suf.toList.isSuffixOf s.toList

/-- Python `path.lstrip("/\\")`: drop leading `/` and `\` characters. -/
def lstripSeps (s : String) : String :=
  String.mk (s.toList.dropWhile (fun c => c == '/' || c == '\\'))

/-- Splitting a character list at `/` characters, as Python `str.split("/")`. -/
def splitSlashAux : List Char → List (List Char)
  | [] => [[]]
  | c :: rest =>
    if c == '/' then [] :: splitSlashAux rest
    else
      match splitSlashAux rest with
      | [] => [[c]]
      | seg :: segs => (c :: seg) :: segs

/-- Python `s.split("/")`. -/
def splitOnSlash (s : String) : List String := (splitSlashAux s.toList).map String.mk

/-- Python `"/".join(segs)` (also `posixpath.join` over separator-free parts). -/
def joinSegs : List String → String
  | [] => ""
  | [a] => a
  | a :: rest => a ++ "/" ++ joinSegs rest

/-- Component loop of `posixpath.normpath`: drop empty and `.` components and
resolve `..` components lexically. -/
def normpathComps (initialSlashes : Nat) (comps : List String) : List String :=
  comps.foldl
    (fun acc comp =>
      if comp == "" || comp == "." then acc
      else if !(comp == "..") || (initialSlashes == 0 && acc.isEmpty)
          || (!acc.isEmpty && acc.getLast? == some "..") then acc ++ [comp]
      else if !acc.isEmpty then acc.dropLast
      else acc)
    []

/-- Embedding of `posixpath.normpath`. -/
def pyNormpath (path : String) : String :=
  let initialSlashes : Nat :=
    if strStartsWith path "/" then
      if strStartsWith path "//" && !strStartsWith path "///" then 2 else 1
    else 0
  let newComps := normpathComps initialSlashes (splitOnSlash path)
  let res :=
    (if initialSlashes == 2 then "//" else if initialSlashes == 1 then "/" else "")
      ++ joinSegs newComps
  if res == "" then "." else res

/-- Embedding of two-argument `posixpath.join`. -/
def pyJoin (a b : String) : String :=
  if strStartsWith b "/" then b
  else if a == "" || strEndsWith a "/" then a ++ b
  else a ++ "/" ++ b

/-- Embedding of `posixpath.abspath`, with the process working directory passed
explicitly instead of read from the OS. -/
def pyAbspath (cwd path : String) : String :=
  pyNormpath (if strStartsWith path "/" then path else pyJoin cwd path)

/-- Length of the longest common prefix of two segment lists, as
`os.path.commonprefix` on split paths. -/
def commonPrefixLen : List String → List String → Nat
  | x :: xs, y :: ys => if x == y then commonPrefixLen xs ys + 1 else 0
  | _, _ => 0

/-- Embedding of `posixpath.relpath path start`, with the working directory
passed explicitly. -/
def pyRelpath (cwd path start : String) : String :=
  let startList := (splitOnSlash (pyAbspath cwd start)).filter (fun seg => !(seg == ""))
  let pathList := (splitOnSlash (pyAbspath cwd path)).filter (fun seg => !(seg == ""))
  let i := commonPrefixLen startList pathList
  let relList := List.replicate (startList.length - i) ".." ++ pathList.drop i
  if relList.isEmpty then "." else joinSegs relList

/-- Embedding of `posixpath.basename`. -/
def pyBasename (p : String) : String := ((splitOnSlash p).getLast?).getD ""

/-- Index of the last `/` of a character list, if any. -/
def lastSlashPos : List Char → Option Nat
  | [] => none
  | c :: rest =>
    match lastSlashPos rest with
    | some n => some (n + 1)
    | none => if c == '/' then some 0 else none

/-- Embedding of `posixpath.dirname`. -/
def pyDirname (p : String) : String :=
  match lastSlashPos p.toList with
  | none => ""
  | some n =>
    let head := p.toList.take (n + 1)
    if head.all (fun c => c == '/') then String.mk head
    else String.mk ((head.reverse.dropWhile (fun c => c == '/')).reverse)

/-- Backtracking matcher realizing the regular expression produced by
`fnmatch.translate`: `*` matches any run of characters (separators included),
`?` any single character, other characters match themselves.  Character classes
`[...]` are not used by any pattern of this server.  The fuel argument only
bounds the recursion; `fnmatch` below always supplies enough of it, since every
recursive call shrinks `pattern.length + s.length` by at least one. -/
def globMatchAux : Nat → List Char → List Char → Bool
  | 0, _, _ => false
  | _ + 1, [], s => s.isEmpty
  | f + 1, '*' :: ps, [] => globMatchAux f ps []
  | f + 1, '*' :: ps, c :: cs => globMatchAux f ps (c :: cs) || globMatchAux f ('*' :: ps) cs
  | f + 1, '?' :: ps, _ :: cs => globMatchAux f ps cs
  | _ + 1, _ :: _, [] => false
  | f + 1, p :: ps, c :: cs => p == c && globMatchAux f ps cs

/-- Embedding of `glob.fnmatch.fnmatch name pat` on POSIX (where `normcase` is
the identity, so no case folding happens). -/
def fnmatch (name pat : String) : Bool :=
  globMatchAux (pat.toList.length + name.toList.length + 1) pat.toList name.toList

/-- Python string slice `s[:n]`. -/
def strTake (s : String) (n : Nat) : String := String.mk (s.toList.take n)

/-- Code-point lexicographic comparison of character lists. -/
def charListLe : List Char → List Char → Bool
  | [], _ => true
  | _ :: _, [] => false
  | a :: xs, b :: ys =>
    if a.toNat < b.toNat then true
    else if b.toNat < a.toNat then false
    else charListLe xs ys

/-- Python string comparison `a <= b` (code-point lexicographic). -/
def strLe (a b : String) : Bool := charListLe a.toList b.toList

/-- Insertion into a sorted list of strings. -/
def insertSorted (x : String) : List String → List String
  | [] => [x]
  | y :: ys => if strLe x y then x :: y :: ys else y :: insertSorted x ys

/-- Python `sorted` on a list of strings. -/
def sortStrings (l : List String) : List String := l.foldr insertSorted []

/-- Failure taxonomy of the server (spec §7).  The `PermissionError`s raised by
`_abs`, `_deny_check`/`_allow_check` and `run` map to the boundary-violation
constructors; `FileNotFoundError`, `FileExistsError` and `IsADirectoryError`
map to the last three. -/
inductive Err
  | PathEscape
  | PolicyDenied
  | FeatureDisabled
  | CommandNotAllowed
  | ArgumentPrefixViolation
  | NotFound
  | AlreadyExists
  | IsADirectory
  deriving DecidableEq, Repr

/-- Embedding of `server._abs`: strip leading separators from the requested
path, join it onto the canonical root, normalize, and accept the result only
when it equals the root or lies strictly below it. -/
def _abs (cwd ROOT_DIR path : String) : Except Err String :=
  let base := pyAbspath cwd ROOT_DIR
  let target := pyAbspath cwd (pyJoin base (lstripSeps path))
  if strStartsWith target (base ++ "/") || target == base then Except.ok target
  else Except.error Err.PathEscape

/-- Embedding of `server._deny_check` (the source raises on the first matching
pattern; the existence of a match is what is observable in the error type). -/
def _deny_check (cwd ROOT_DIR : String) (denyGlobs : List String)
    (absPath : String) : Except Err Unit :=
  let rel := pyRelpath cwd absPath ROOT_DIR
  if denyGlobs.any (fun pat => fnmatch rel pat) then Except.error Err.PolicyDenied
  else Except.ok ()

/-- Embedding of `server._allow_check`. -/
def _allow_check (cwd ROOT_DIR : String) (allowGlobs : List String)
    (absPath : String) : Except Err Unit :=
  let rel := pyRelpath cwd absPath ROOT_DIR
  if !(allowGlobs.any (fun pat => fnmatch rel pat)) then Except.error Err.PolicyDenied
  else Except.ok ()

/-- Embedding of `server._policy`: deny check first, then allow check. -/
def _policy (cwd ROOT_DIR : String) (denyGlobs allowGlobs : List String)
    (absPath : String) : Except Err Unit :=
  match _deny_check cwd ROOT_DIR denyGlobs absPath with
  | Except.error e => Except.error e
  | Except.ok _ => _allow_check cwd ROOT_DIR allowGlobs absPath

/-- Configured allow patterns (`server.ALLOW_GLOBS`). -/
def ALLOW_GLOBS : List String := ["**/*"]

/-- Configured deny patterns (`server.DENY_GLOBS`). -/
def DENY_GLOBS : List String :=
  ["**/.env*", "**/.ssh/**", "**/.git/**", "**/node_modules/**", "**/id_*"]

/-- Configured command allowlist (`server.COMMAND_ALLOWLIST`): basename to
required argument front segment. -/
def COMMAND_ALLOWLIST : List (String × List String) :=
  [("bash", ["-lc"]), ("sh", ["-lc"]), ("python", ["-V"]), ("pip", ["--version"])]

/-- Kind of a filesystem node.  `os.path.isdir` follows symlinks; the model
keeps the three kinds distinct and treats `symlink` as the non-directory case,
which is how `rm`/`mv` dispatch on `isdir and not islink`. -/
inductive NodeKind
  | file
  | dir
  | symlink
  deriving DecidableEq, Repr

/-- The filesystem, modelled as an association list from absolute path to node
kind (first binding wins). -/
abbrev Fs := List (String × NodeKind)

/-- Look a path up in the filesystem model. -/
def lookupFs : Fs → String → Option NodeKind
  | [], _ => none
  | e :: rest, p => if e.1 == p then some e.2 else lookupFs rest p

/-- Python `os.path.exists` on the model (symlink targets not modelled). -/
def existsFs (fs : Fs) (p : String) : Bool := (lookupFs fs p).isSome

/-- Python `os.path.isdir` on the model. -/
def isDirFs (fs : Fs) (p : String) : Bool := lookupFs fs p == some NodeKind.dir

/-- Python `os.path.islink` on the model. -/
def isLinkFs (fs : Fs) (p : String) : Bool := lookupFs fs p == some NodeKind.symlink

/-- Embedding of `server.ensure_root`: `os.makedirs(ROOT_DIR, exist_ok=True)`.
Ancestor directories of the root live outside every sandbox path and are
elided; the `FileExistsError` branch for a root that exists as a non-directory
is likewise elided (the model treats any existing node as satisfying
`exist_ok`). -/
def ensureRoot (base : String) (fs : Fs) : Fs :=
  if (lookupFs fs base).isSome then fs else (base, NodeKind.dir) :: fs

/-- Embedding of `os.makedirs(d, exist_ok=True)` as used after the policy
checks; ancestor creation is collapsed into the single target binding. -/
def mkdirsFs (fs : Fs) (d : String) : Fs :=
  if (lookupFs fs d).isSome then fs else (d, NodeKind.dir) :: fs

/-- Embedding of `shutil.rmtree`: remove the path and everything below it. -/
def rmtreeFs (fs : Fs) (p : String) : Fs :=
  fs.filter (fun e => !(e.1 == p || strStartsWith e.1 (p ++ "/")))

/-- Embedding of `os.remove`. -/
def removeFs (fs : Fs) (p : String) : Fs := fs.filter (fun e => !(e.1 == p))

/-- Effect of `io.open(ap, "w").write(content)` on the model: the path now
holds a file (content is not tracked; no claim depends on it). -/
def writeFileFs (fs : Fs) (p : String) : Fs :=
  (p, NodeKind.file) :: fs.filter (fun e => !(e.1 == p))

/-- Embedding of `shutil.move` in the configuration the server can reach (the
destination never exists when the move happens): rename the source binding and
every binding below it onto the destination. -/
def renameFs (fs : Fs) (src dst : String) : Fs :=
  fs.map (fun e =>
    if e.1 == src then (dst, e.2)
    else if strStartsWith e.1 (src ++ "/") then
      (dst ++ String.mk (e.1.toList.drop src.toList.length), e.2)
    else e)

/-- The `lstat`-derived data of a directory entry; supplied by an oracle since
no claim constrains the OS stat values themselves. -/
structure StatData where
  isDir : Bool
  size : Nat
  mode : Nat
  mtime : Int
  deriving DecidableEq, Repr

/-- One element of the `entries` output of `list_dir`. -/
structure DirEntry where
  name : String
  isDir : Bool
  size : Nat
  mode : Nat
  mtime : Int
  deriving DecidableEq, Repr

/-- The record `list_dir` appends for an admitted entry (`st_mode & 0o777`
masking included; the octal formatting of `mode` is not modelled). -/
def entryFor (statOf : String → StatData) (name : String) : DirEntry :=
  { name := name
    isDir := (statOf name).isDir
    size := (statOf name).size
    mode := (statOf name).mode &&& 0o777
    mtime := (statOf name).mtime }

/-- Embedding of the tool `list_dir`.  `names` stands for `os.listdir(ap)`,
`statOf` for the per-entry `lstat`/`isdir` data and `apIsDir` for
`os.path.isdir(ap)`; the source raises `FileNotFoundError("Not a directory")`
when the resolved path is not a directory.  `ensure_root` touches only the
filesystem, which this read-only operation does not return, so it is not
threaded here (its effect is covered by the mutating operations below). -/
def list_dir (cwd ROOT_DIR : String) (denyGlobs allowGlobs : List String)
    (path globPattern : String) (includeHidden : Bool)
    (names : List String) (statOf : String → StatData) (apIsDir : Bool) :
    Except Err (String × List DirEntry) :=
  match _abs cwd ROOT_DIR path with
  | Except.error e => Except.error e
  | Except.ok ap =>
    if !apIsDir then Except.error Err.NotFound
    else
      Except.ok (pyRelpath cwd ap ROOT_DIR,
        (sortStrings names).filterMap (fun name =>
          if !includeHidden && strStartsWith name "." then none
          else if !fnmatch name globPattern then none
          else
            match _policy cwd ROOT_DIR denyGlobs allowGlobs (pyJoin ap name) with
            | Except.error _ => none
            | Except.ok _ => some (entryFor statOf name)))

/-- Embedding of the tool `write_text` (returned `bytes` count not modelled;
the written content does not matter to any claim, see `writeFileFs`). -/
def write_text (cwd ROOT_DIR : String) (denyGlobs allowGlobs : List String)
    (fs : Fs) (path : String) (create_dirs overwrite : Bool) :
    Fs × Except Err String :=
  let base := pyAbspath cwd ROOT_DIR
  let fs1 := ensureRoot base fs
  match _abs cwd ROOT_DIR path with
  | Except.error e => (fs1, Except.error e)
  | Except.ok ap =>
    match _policy cwd ROOT_DIR denyGlobs allowGlobs ap with
    | Except.error e => (fs1, Except.error e)
    | Except.ok _ =>
      let fs2 := if create_dirs then mkdirsFs fs1 (pyDirname ap) else fs1
      if existsFs fs2 ap && !overwrite then (fs2, Except.error Err.AlreadyExists)
      else (writeFileFs fs2 ap, Except.ok (pyRelpath cwd ap ROOT_DIR))

/-- Embedding of the tool `mkdir`. -/
def mkdir (cwd ROOT_DIR : String) (denyGlobs allowGlobs : List String)
    (fs : Fs) (path : String) (parents exist_ok : Bool) :
    Fs × Except Err String :=
  let base := pyAbspath cwd ROOT_DIR
  let fs1 := ensureRoot base fs
  match _abs cwd ROOT_DIR path with
  | Except.error e => (fs1, Except.error e)
  | Except.ok ap =>
    match _policy cwd ROOT_DIR denyGlobs allowGlobs ap with
    | Except.error e => (fs1, Except.error e)
    | Except.ok _ =>
      if parents then
        if existsFs fs1 ap && !exist_ok then (fs1, Except.error Err.AlreadyExists)
        else (mkdirsFs fs1 ap, Except.ok (pyRelpath cwd ap ROOT_DIR))
      else
        if existsFs fs1 ap then (fs1, Except.error Err.AlreadyExists)
        else if !existsFs fs1 (pyDirname ap) then (fs1, Except.error Err.NotFound)
        else ((ap, NodeKind.dir) :: fs1, Except.ok (pyRelpath cwd ap ROOT_DIR))

/-- Embedding of the tool `mv`. -/
def mv (cwd ROOT_DIR : String) (denyGlobs allowGlobs : List String)
    (fs : Fs) (src dst : String) (overwrite : Bool) :
    Fs × Except Err (String × String) :=
  let base := pyAbspath cwd ROOT_DIR
  let fs1 := ensureRoot base fs
  match _abs cwd ROOT_DIR src with
  | Except.error e => (fs1, Except.error e)
  | Except.ok aps =>
    match _policy cwd ROOT_DIR denyGlobs allowGlobs aps with
    | Except.error e => (fs1, Except.error e)
    | Except.ok _ =>
      match _abs cwd ROOT_DIR dst with
      | Except.error e => (fs1, Except.error e)
      | Except.ok apd =>
        match _policy cwd ROOT_DIR denyGlobs allowGlobs apd with
        | Except.error e => (fs1, Except.error e)
        | Except.ok _ =>
          let fs2 := mkdirsFs fs1 (pyDirname apd)
          if existsFs fs2 apd && !overwrite then (fs2, Except.error Err.AlreadyExists)
          else
            let fs3 :=
              if overwrite && existsFs fs2 apd then
                if isDirFs fs2 apd && !isLinkFs fs2 apd then rmtreeFs fs2 apd
                else removeFs fs2 apd
              else fs2
            (renameFs fs3 aps apd,
              Except.ok (pyRelpath cwd aps ROOT_DIR, pyRelpath cwd apd ROOT_DIR))

/-- Embedding of the tool `rm`. -/
def rm (cwd ROOT_DIR : String) (denyGlobs allowGlobs : List String)
    (fs : Fs) (path : String) (recursive : Bool) :
    Fs × Except Err String :=
  let base := pyAbspath cwd ROOT_DIR
  let fs1 := ensureRoot base fs
  match _abs cwd ROOT_DIR path with
  | Except.error e => (fs1, Except.error e)
  | Except.ok ap =>
    match _policy cwd ROOT_DIR denyGlobs allowGlobs ap with
    | Except.error e => (fs1, Except.error e)
    | Except.ok _ =>
      if isDirFs fs1 ap && !isLinkFs fs1 ap then
        if !recursive then (fs1, Except.error Err.IsADirectory)
        else (rmtreeFs fs1 ap, Except.ok (pyRelpath cwd ap ROOT_DIR))
      else
        match lookupFs fs1 ap with
        | none => (fs1, Except.error Err.NotFound)
        | some _ => (removeFs fs1 ap, Except.ok (pyRelpath cwd ap ROOT_DIR))

/-- Observable behaviour of a spawned child process, supplied by an oracle:
it either completes within the timeout, exceeds the timeout (with the partial
output captured by the time of the kill), or fails to spawn. -/
inductive ProcBehavior
  | completes (rc : Int) (out err : String)
  | timesOut (out err : String)
  | spawnFails (msg : String)

/-- The JSON-like record `run` returns.  Optional fields model keys that are
absent from some of the three result dictionaries; `rc = some none` models the
key being present with value `None`.  The wall-clock `elapsed_sec` value of the
success dictionary is not modelled. -/
structure RunResult where
  ok : Bool
  rc : Option (Option Int) := none
  stdout : Option String := none
  stderr : Option String := none
  error : Option String := none
  deriving DecidableEq, Repr

/-- The spawn request `run` hands to `subprocess.Popen`. -/
structure RunSpawn where
  argv : List String
  cwd : String
  deriving DecidableEq, Repr

/-- Validation phase of the tool `run`, up to the `Popen` call: feature gate,
working-directory resolution and policy, basename allowlist lookup, and the
argument front-segment check `final_args[:len(p)] == p`. -/
def runValidate (enable : Bool) (cwd ROOT_DIR : String)
    (allowlist : List (String × List String)) (denyGlobs allowGlobs : List String)
    (cmd : String) (args : List String) (cwdArg : String) :
    Except Err RunSpawn :=
  if !enable then Except.error Err.FeatureDisabled
  else
    match _abs cwd ROOT_DIR cwdArg with
    | Except.error e => Except.error e
    | Except.ok apCwd =>
      match _policy cwd ROOT_DIR denyGlobs allowGlobs apCwd with
      | Except.error e => Except.error e
      | Except.ok _ =>
        match allowlist.lookup (pyBasename cmd) with
        | none => Except.error Err.CommandNotAllowed
        | some pfx =>
          if !(args.take pfx.length == pfx) then Except.error Err.ArgumentPrefixViolation
          else Except.ok { argv := cmd :: args, cwd := apCwd }

/-- Result construction of the execution phase of `run`, one case per result
dictionary of the source (success, `TimeoutExpired`, spawn exception). -/
def runExec (cap : Nat) (b : ProcBehavior) : RunResult :=
  match b with
  | ProcBehavior.completes c out err =>
    { ok := c == 0
      rc := some (some c)
      stdout := some (strTake out cap)
      stderr := some (strTake err cap) }
  | ProcBehavior.timesOut out err =>
    { ok := false
      error := some "timeout"
      stdout := some (strTake out cap)
      stderr := some (strTake err cap)
      rc := some none }
  | ProcBehavior.spawnFails msg => { ok := false, error := some msg }

/-- Embedding of the tool `run`.  `behavior` is the oracle for what the
spawned process does.  `ensure_root` runs only after the feature gate, which
the filesystem component reflects. -/
def run (enable : Bool) (cwd ROOT_DIR : String)
    (allowlist : List (String × List String)) (denyGlobs allowGlobs : List String)
    (cap : Nat) (fs : Fs) (cmd : String) (args : List String) (cwdArg : String)
    (behavior : List String → String → ProcBehavior) :
    Fs × Except Err RunResult :=
  match runValidate enable cwd ROOT_DIR allowlist denyGlobs allowGlobs cmd args cwdArg with
  | Except.error e =>
    (if e == Err.FeatureDisabled then fs else ensureRoot (pyAbspath cwd ROOT_DIR) fs,
      Except.error e)
  | Except.ok spawn =>
    (ensureRoot (pyAbspath cwd ROOT_DIR) fs,
      Except.ok (runExec cap (behavior spawn.argv spawn.cwd)))

/-- Predicate for the five boundary-violation failures of spec §7. -/
def isBoundary (e : Err) : Bool :=
  match e with
  | Err.PathEscape => true
  | Err.PolicyDenied => true
  | Err.FeatureDisabled => true
  | Err.CommandNotAllowed => true
  | Err.ArgumentPrefixViolation => true
  | _ => false

/-! ## Helper lemmas -/

/-- A successful Python `startswith` exhibits the string as the tested front
part followed by a remainder. -/
theorem strStartsWith_exists_suffix (s pre : String) (h : strStartsWith s pre = true) :
    ∃ r : String, s = pre ++ r := by
  cases s with
  | mk sdata =>
    cases pre with
    | mk pdata =>
      unfold strStartsWith at h
      rw [List.isPrefixOf_iff_prefix] at h
      obtain ⟨r, hr⟩ := h
      exact ⟨String.mk r, congrArg String.mk hr.symm⟩

/-- Matching any of the three tails of the pattern `**/*` forces the string to
contain a separator: `*` can swallow anything, but the literal `/` of the
pattern has to be consumed from the string. -/
theorem globMatchAux_star_slash (fuel : Nat) :
    ∀ s : List Char,
      (globMatchAux fuel ['*', '*', '/', '*'] s = true → '/' ∈ s) ∧
      (globMatchAux fuel ['*', '/', '*'] s = true → '/' ∈ s) ∧
      (globMatchAux fuel ['/', '*'] s = true → '/' ∈ s) := by
  induction fuel with
  | zero => intro s; refine ⟨?_, ?_, ?_⟩ <;> simp [globMatchAux]
  | succ f ih =>
    intro s
    cases s with
    | nil =>
      refine ⟨?_, ?_, ?_⟩ <;> intro h <;> simp only [globMatchAux] at h
      · exact (ih []).2.1 h
      · exact (ih []).2.2 h
      · exact absurd h (by simp)
    | cons c cs =>
      refine ⟨?_, ?_, ?_⟩ <;> intro h <;>
        simp only [globMatchAux, Bool.or_eq_true, Bool.and_eq_true] at h
      · rcases h with h | h
        · exact (ih (c :: cs)).2.1 h
        · exact List.mem_cons_of_mem c ((ih cs).1 h)
      · rcases h with h | h
        · exact (ih (c :: cs)).2.2 h
        · exact List.mem_cons_of_mem c ((ih cs).2.1 h)
      · rcases h with ⟨hc, -⟩
        rw [eq_of_beq hc]
        exact List.mem_cons_self _ _

/-- Removing a subtree removes its top binding. -/
theorem lookupFs_rmtreeFs_self (fs : Fs) (p : String) :
    lookupFs (rmtreeFs fs p) p = none := by
  induction fs with
  | nil => rfl
  | cons e rest ih =>
    simp only [rmtreeFs] at ih ⊢
    rw [List.filter_cons]
    by_cases h : e.1 == p
    · have hpred : (!(e.1 == p || strStartsWith e.1 (p ++ "/"))) = false := by simp [h]
      rw [hpred]
      exact ih
    · by_cases h2 : strStartsWith e.1 (p ++ "/")
      · have hpred : (!(e.1 == p || strStartsWith e.1 (p ++ "/"))) = false := by simp [h2]
        rw [hpred]
        exact ih
      · have hpred : (!(e.1 == p || strStartsWith e.1 (p ++ "/"))) = true := by simp [h, h2]
        rw [hpred]
        simp only [lookupFs]
        rw [if_neg h]
        exact ih

/-- The only error `_abs` can produce is `PathEscape`. -/
theorem abs_error_escape (cwd ROOT_DIR path : String) (e : Err)
    (h : _abs cwd ROOT_DIR path = Except.error e) : e = Err.PathEscape := by
  simp only [_abs] at h
  split at h
  · exact Except.noConfusion h
  · injection h with h
    exact h.symm

/-- The only error `_policy` can produce is `PolicyDenied`. -/
theorem policy_error_denied (cwd ROOT_DIR : String) (denyGlobs allowGlobs : List String)
    (absPath : String) (e : Err)
    (h : _policy cwd ROOT_DIR denyGlobs allowGlobs absPath = Except.error e) :
    e = Err.PolicyDenied := by
  by_cases hd : denyGlobs.any (fun pat => fnmatch (pyRelpath cwd absPath ROOT_DIR) pat)
  · simp [_policy, _deny_check, hd] at h
    exact h.symm
  · by_cases ha : allowGlobs.any (fun pat => fnmatch (pyRelpath cwd absPath ROOT_DIR) pat)
    · simp [_policy, _deny_check, _allow_check, hd, ha] at h
    · simp [_policy, _deny_check, _allow_check, hd, ha] at h
      exact h.symm

/-! ## Claim theorems -/

/-- C1: for every requested path string (any number of `..` segments
included), `_abs` either fails with `PathEscape` or returns a path equal to
the canonical sandbox root or equal to the root followed by a separator and a
suffix (a true descendant); in particular, with root `/sandbox`, the sibling
`/sandbox-other` is never accepted. -/
theorem c1_abs_contained :
    (∀ cwd ROOT_DIR path t, _abs cwd ROOT_DIR path = Except.ok t →
      t = pyAbspath cwd ROOT_DIR ∨
        ∃ suf : String, t = pyAbspath cwd ROOT_DIR ++ "/" ++ suf) ∧
    (∀ cwd path, _abs cwd "/sandbox" path ≠ Except.ok "/sandbox-other") := by
  constructor
  · intro cwd ROOT_DIR path t h
    simp only [_abs] at h
    split at h
    · rename_i hcond
      injection h with ht
      subst ht
      rw [Bool.or_eq_true] at hcond
      rcases hcond with hpre | heq
      · obtain ⟨r, hr⟩ := strStartsWith_exists_suffix _ _ hpre
        exact Or.inr ⟨r, hr⟩
      · exact Or.inl (eq_of_beq heq)
    · exact Except.noConfusion h
  · intro cwd path h
    simp only [_abs] at h
    split at h
    · rename_i hcond
      injection h with ht
      rw [ht] at hcond
      rw [show pyAbspath cwd "/sandbox" = "/sandbox" from rfl] at hcond
      exact absurd hcond (by decide)
    · exact Except.noConfusion h

theorem c1_abs_contained_witness :
    _abs "/" "/sandbox" "x/../y" = Except.ok "/sandbox/y" ∧
    ("/sandbox/y" = pyAbspath "/" "/sandbox" ∨
      ∃ suf : String, "/sandbox/y" = pyAbspath "/" "/sandbox" ++ "/" ++ suf) :=
  ⟨rfl, c1_abs_contained.1 "/" "/sandbox" "x/../y" "/sandbox/y" rfl⟩

/-- C2: `_policy` evaluates the deny patterns strictly before the allow
patterns — a root-relative form matching any deny pattern is refused with
`PolicyDenied` regardless of the allow set, and the check succeeds exactly
when no deny pattern matches and at least one allow pattern does; concretely,
with deny `**/.git/**` and allow `**/*`, `project/.git/config` is refused and
`project/readme.md` passes. -/
theorem c2_policy_deny_before_allow :
    (∀ cwd ROOT_DIR denyGlobs allowGlobs absPath,
        denyGlobs.any (fun pat => fnmatch (pyRelpath cwd absPath ROOT_DIR) pat) = true →
        _policy cwd ROOT_DIR denyGlobs allowGlobs absPath = Except.error Err.PolicyDenied) ∧
    (∀ cwd ROOT_DIR denyGlobs allowGlobs absPath,
        _policy cwd ROOT_DIR denyGlobs allowGlobs absPath = Except.ok () ↔
          denyGlobs.any (fun pat => fnmatch (pyRelpath cwd absPath ROOT_DIR) pat) = false ∧
          allowGlobs.any (fun pat => fnmatch (pyRelpath cwd absPath ROOT_DIR) pat) = true) ∧
    _policy "/" "/sandbox" ["**/.git/**"] ["**/*"] "/sandbox/project/.git/config"
      = Except.error Err.PolicyDenied ∧
    _policy "/" "/sandbox" ["**/.git/**"] ["**/*"] "/sandbox/project/readme.md"
      = Except.ok () := by
  refine ⟨?_, ?_, rfl, rfl⟩
  · intro cwd ROOT_DIR denyGlobs allowGlobs absPath hd
    simp [_policy, _deny_check, hd]
  · intro cwd ROOT_DIR denyGlobs allowGlobs absPath
    cases hd : denyGlobs.any (fun pat => fnmatch (pyRelpath cwd absPath ROOT_DIR) pat) <;>
      cases ha : allowGlobs.any (fun pat => fnmatch (pyRelpath cwd absPath ROOT_DIR) pat) <;>
        simp [_policy, _deny_check, _allow_check, hd, ha]

theorem c2_policy_deny_before_allow_witness :
    _policy "/" "/sandbox" ["**/*"] [] "/sandbox/a/b" = Except.error Err.PolicyDenied :=
  c2_policy_deny_before_allow.1 "/" "/sandbox" ["**/*"] [] "/sandbox/a/b" (by decide)

/-- C3 counterexample: with root `/sandbox`, resolving `"/etc/passwd"` does
not fail — `_abs` strips the leading separator, so the path resolves inside
the sandbox and is accepted. -/
theorem c3_counterexample :
    _abs "/" "/sandbox" "/etc/passwd" = Except.ok "/sandbox/etc/passwd" := rfl

/-- C3 (amended): with root `/sandbox`, resolving `"/etc/passwd"` succeeds
with the in-sandbox path `/sandbox/etc/passwd` (leading separators are
stripped, the path is treated as root-relative), while resolving
`"../../etc/passwd"` fails with `PathEscape`. -/
theorem c3_amended :
    _abs "/" "/sandbox" "/etc/passwd" = Except.ok "/sandbox/etc/passwd" ∧
    _abs "/" "/sandbox" "../../etc/passwd" = Except.error Err.PathEscape :=
  ⟨rfl, rfl⟩

/-- C4 (divergence at the inputs of the claim): with the feature enabled, the
default configuration and the default working directory `"."`, both
`run("bash", ["-lc", "echo hi"])` and `run("bash", ["-c", "echo hi"])` fail
the working-directory policy check with `PolicyDenied` — the allow pattern
`**/*` does not match the relative form `"."` — before the command allowlist
and argument checks are ever reached, so neither behaves as the claim
states. -/
theorem c4_run_default_cwd_policy_denied :
    runValidate true "/" "/sandbox" COMMAND_ALLOWLIST DENY_GLOBS ALLOW_GLOBS
        "bash" ["-lc", "echo hi"] "." = Except.error Err.PolicyDenied ∧
    runValidate true "/" "/sandbox" COMMAND_ALLOWLIST DENY_GLOBS ALLOW_GLOBS
        "bash" ["-c", "echo hi"] "." = Except.error Err.PolicyDenied :=
  ⟨rfl, rfl⟩

/-- C5: whenever validation passes and the spawned process exceeds the
timeout, `run` returns a structured result (not a failure): `ok = false`, the
error indicator `"timeout"`, the return-code key present and holding `None`,
and the stdout/stderr captured up to the kill, each truncated to the
configured cap. -/
theorem c5_run_timeout_result :
    ∀ enable cwd ROOT_DIR allowlist denyGlobs allowGlobs cap fs cmd args cwdArg
      behavior spawn out err,
      runValidate enable cwd ROOT_DIR allowlist denyGlobs allowGlobs cmd args cwdArg
        = Except.ok spawn →
      behavior spawn.argv spawn.cwd = ProcBehavior.timesOut out err →
      (run enable cwd ROOT_DIR allowlist denyGlobs allowGlobs cap fs cmd args cwdArg
          behavior).2 =
        Except.ok
          { ok := false
            error := some "timeout"
            stdout := some (strTake out cap)
            stderr := some (strTake err cap)
            rc := some none } := by
  intro enable cwd ROOT_DIR allowlist denyGlobs allowGlobs cap fs cmd args cwdArg
    behavior spawn out err hval hbeh
  simp [run, hval, runExec, hbeh]

theorem c5_run_timeout_result_witness :
    (run true "/" "/sandbox" COMMAND_ALLOWLIST DENY_GLOBS ALLOW_GLOBS 5 []
        "bash" ["-lc", "sleep 99"] "a/b"
        (fun _ _ => ProcBehavior.timesOut "partial out" "e")).2 =
      Except.ok
        { ok := false
          error := some "timeout"
          stdout := some (strTake "partial out" 5)
          stderr := some (strTake "e" 5)
          rc := some none } :=
  c5_run_timeout_result true "/" "/sandbox" COMMAND_ALLOWLIST DENY_GLOBS ALLOW_GLOBS 5 []
    "bash" ["-lc", "sleep 99"] "a/b" (fun _ _ => ProcBehavior.timesOut "partial out" "e")
    { argv := ["bash", "-lc", "sleep 99"], cwd := "/sandbox/a/b" } "partial out" "e" rfl rfl

/-- C9: under the default allow set `["**/*"]`, a root-relative form without a
separator matches no allow pattern (the literal `/` of the pattern must come from
the matched string), so the allow check fails with `PolicyDenied`; in
particular `run` with its default working directory `"."` fails the policy
check for every command and argument list, even with the feature enabled and
the command allowlisted. -/
theorem c9_default_allow_misses_top_level :
    (∀ rel : String, ¬('/' ∈ rel.toList) → fnmatch rel "**/*" = false) ∧
    (∀ cwd ROOT_DIR absPath, ¬('/' ∈ (pyRelpath cwd absPath ROOT_DIR).toList) →
        _allow_check cwd ROOT_DIR ALLOW_GLOBS absPath = Except.error Err.PolicyDenied) ∧
    (∀ cmd args, runValidate true "/" "/sandbox" COMMAND_ALLOWLIST DENY_GLOBS ALLOW_GLOBS
        cmd args "." = Except.error Err.PolicyDenied) := by
  have hlit : ∀ rel : String, ¬('/' ∈ rel.toList) → fnmatch rel "**/*" = false := by
    intro rel hn
    cases h : fnmatch rel "**/*" with
    | false => rfl
    | true => exact absurd ((globMatchAux_star_slash _ rel.toList).1 h) hn
  refine ⟨hlit, ?_, ?_⟩
  · intro cwd ROOT_DIR absPath hn
    simp [_allow_check, ALLOW_GLOBS, hlit _ hn]
  · intro cmd args
    rfl

theorem c9_default_allow_misses_top_level_witness :
    fnmatch "readme.md" "**/*" = false :=
  c9_default_allow_misses_top_level.1 "readme.md" (by decide)

/-- C10: `runValidate` checks only the basename of the requested command
against the allowlist, yet the spawn request carries the full command string of the caller as
`argv[0]`: a successful validation always has `argv = cmd :: args`,
a command whose basename is an allowlist key can never fail with
`CommandNotAllowed`, and the concrete call with `/tmp/anything/bash` passes
the allowlist check and spawns that full string. -/
theorem c10_run_full_cmd_argv :
    (∀ enable cwd ROOT_DIR allowlist denyGlobs allowGlobs cmd args cwdArg spawn,
        runValidate enable cwd ROOT_DIR allowlist denyGlobs allowGlobs cmd args cwdArg
          = Except.ok spawn →
        spawn.argv = cmd :: args) ∧
    (∀ enable cwd ROOT_DIR allowlist denyGlobs allowGlobs cmd args cwdArg,
        (allowlist.lookup (pyBasename cmd)).isSome = true →
        runValidate enable cwd ROOT_DIR allowlist denyGlobs allowGlobs cmd args cwdArg
          ≠ Except.error Err.CommandNotAllowed) ∧
    runValidate true "/" "/sandbox" COMMAND_ALLOWLIST DENY_GLOBS ALLOW_GLOBS
        "/tmp/anything/bash" ["-lc", "echo hi"] "proj/sub"
      = Except.ok { argv := ["/tmp/anything/bash", "-lc", "echo hi"],
                    cwd := "/sandbox/proj/sub" } := by
  refine ⟨?_, ?_, rfl⟩
  · intro enable cwd ROOT_DIR allowlist denyGlobs allowGlobs cmd args cwdArg spawn h
    simp only [runValidate] at h
    split at h
    · exact Except.noConfusion h
    · split at h
      · exact Except.noConfusion h
      · split at h
        · exact Except.noConfusion h
        · split at h
          · exact Except.noConfusion h
          · split at h
            · exact Except.noConfusion h
            · injection h with h
              rw [← h]
  · intro enable cwd ROOT_DIR allowlist denyGlobs allowGlobs cmd args cwdArg hk h
    simp only [runValidate] at h
    split at h
    · injection h with h
      exact Err.noConfusion h
    · split at h
      · rename_i e1 heq
        injection h with h
        subst h
        exact Err.noConfusion (abs_error_escape _ _ _ _ heq)
      · split at h
        · rename_i e1 heq
          injection h with h
          subst h
          exact Err.noConfusion (policy_error_denied _ _ _ _ _ _ heq)
        · split at h
          · rename_i hlook
            rw [hlook] at hk
            exact Bool.noConfusion hk
          · split at h
            · injection h with h
              exact Err.noConfusion h
            · exact Except.noConfusion h

theorem c10_run_full_cmd_argv_witness :
    (RunSpawn.mk ["/tmp/anything/bash", "-lc", "echo hi"] "/sandbox/proj/sub").argv
      = "/tmp/anything/bash" :: ["-lc", "echo hi"] :=
  c10_run_full_cmd_argv.1 true "/" "/sandbox" COMMAND_ALLOWLIST DENY_GLOBS ALLOW_GLOBS
    "/tmp/anything/bash" ["-lc", "echo hi"] "proj/sub"
    (RunSpawn.mk ["/tmp/anything/bash", "-lc", "echo hi"] "/sandbox/proj/sub") rfl

set_option maxHeartbeats 2000000 in
/-- C6: `list_dir` applies the deny/allow policy per entry and silently omits
denied entries instead of failing the whole listing: whenever the path
resolves to a directory the call returns a result, every returned entry
passed the policy check individually, and the concrete directory holding one
allowed entry (`notes.txt`) and one denied entry (`id_rsa`, matched by the
deny pattern `**/id_*`) lists exactly the allowed entry. -/
theorem c6_list_dir_omits_denied :
    (∀ cwd ROOT_DIR denyGlobs allowGlobs path pat hid names statOf ap,
        _abs cwd ROOT_DIR path = Except.ok ap →
        ∃ r, list_dir cwd ROOT_DIR denyGlobs allowGlobs path pat hid names statOf true
          = Except.ok r) ∧
    (∀ cwd ROOT_DIR denyGlobs allowGlobs path pat hid names statOf apIsDir ap rel entries,
        _abs cwd ROOT_DIR path = Except.ok ap →
        list_dir cwd ROOT_DIR denyGlobs allowGlobs path pat hid names statOf apIsDir
          = Except.ok (rel, entries) →
        ∀ ent ∈ entries,
          _policy cwd ROOT_DIR denyGlobs allowGlobs (pyJoin ap ent.name) = Except.ok ()) ∧
    (∀ statOf, list_dir "/" "/sandbox" DENY_GLOBS ALLOW_GLOBS "keys" "*" false
        ["id_rsa", "notes.txt"] statOf true
      = Except.ok ("keys", [entryFor statOf "notes.txt"])) := by
  refine ⟨?_, ?_, ?_⟩
  · intro cwd ROOT_DIR denyGlobs allowGlobs path pat hid names statOf ap habs
    simp [list_dir, habs]
  · intro cwd ROOT_DIR denyGlobs allowGlobs path pat hid names statOf apIsDir ap rel
      entries habs hld
    cases apIsDir with
    | false => simp [list_dir, habs] at hld
    | true =>
      simp [list_dir, habs] at hld
      intro ent hmem
      rw [← hld.2] at hmem
      rw [List.mem_filterMap] at hmem
      obtain ⟨name, hname, hf⟩ := hmem
      split at hf
      · exact Option.noConfusion hf
      · split at hf
        · exact Option.noConfusion hf
        · split at hf
          · exact Option.noConfusion hf
          · rename_i u hpol
            rw [Option.some.injEq] at hf
            subst hf
            simpa [entryFor] using hpol
  · intro statOf
    rfl

set_option maxHeartbeats 1000000 in
theorem c6_list_dir_omits_denied_witness :
    _policy "/" "/sandbox" DENY_GLOBS ALLOW_GLOBS
        (pyJoin "/sandbox/keys"
          (entryFor (fun _ => StatData.mk false 0 420 0) "notes.txt").name)
      = Except.ok () :=
  c6_list_dir_omits_denied.2.1 "/" "/sandbox" DENY_GLOBS ALLOW_GLOBS "keys" "*" false
    ["id_rsa", "notes.txt"] (fun _ => StatData.mk false 0 420 0) true "/sandbox/keys"
    "keys" [entryFor (fun _ => StatData.mk false 0 420 0) "notes.txt"] rfl rfl
    (entryFor (fun _ => StatData.mk false 0 420 0) "notes.txt") (List.mem_cons_self _ _)

/-- C7: on a non-empty directory (the root exists, the path resolves and
passes policy, the resolved path is a real directory and has at least one
entry strictly below it), `rm` without `recursive` fails with the
`IsADirectory`-class error and leaves the filesystem exactly as it was, while
`rm` with `recursive` succeeds and the binding of the directory is gone. -/
theorem c7_rm_directory :
    ∀ cwd ROOT_DIR denyGlobs allowGlobs (fs : Fs) path ap q k,
      lookupFs fs (pyAbspath cwd ROOT_DIR) = some NodeKind.dir →
      _abs cwd ROOT_DIR path = Except.ok ap →
      _policy cwd ROOT_DIR denyGlobs allowGlobs ap = Except.ok () →
      lookupFs fs ap = some NodeKind.dir →
      (q, k) ∈ fs →
      strStartsWith q (ap ++ "/") = true →
      rm cwd ROOT_DIR denyGlobs allowGlobs fs path false
          = (fs, Except.error Err.IsADirectory) ∧
      lookupFs (rm cwd ROOT_DIR denyGlobs allowGlobs fs path true).1 ap = none ∧
      (rm cwd ROOT_DIR denyGlobs allowGlobs fs path true).2
          = Except.ok (pyRelpath cwd ap ROOT_DIR) := by
  intro cwd ROOT_DIR denyGlobs allowGlobs fs path ap q k hroot habs hpol hdir hmem hq
  have hfs1 : ensureRoot (pyAbspath cwd ROOT_DIR) fs = fs := by
    simp [ensureRoot, hroot]
  have hIsDir : isDirFs fs ap = true := by simp [isDirFs, hdir]
  have hIsLink : isLinkFs fs ap = false := by simp [isLinkFs, hdir]
  refine ⟨?_, ?_, ?_⟩
  · simp [rm, hfs1, habs, hpol, hIsDir, hIsLink]
  · simp [rm, hfs1, habs, hpol, hIsDir, hIsLink, lookupFs_rmtreeFs_self]
  · simp [rm, hfs1, habs, hpol, hIsDir, hIsLink]

theorem c7_rm_directory_witness :
    rm "/" "/sandbox" DENY_GLOBS ALLOW_GLOBS
        [("/sandbox", NodeKind.dir), ("/sandbox/a", NodeKind.dir),
          ("/sandbox/a/b", NodeKind.dir), ("/sandbox/a/b/f", NodeKind.file)] "a/b" false
      = ([("/sandbox", NodeKind.dir), ("/sandbox/a", NodeKind.dir),
          ("/sandbox/a/b", NodeKind.dir), ("/sandbox/a/b/f", NodeKind.file)],
          Except.error Err.IsADirectory) ∧
    lookupFs (rm "/" "/sandbox" DENY_GLOBS ALLOW_GLOBS
        [("/sandbox", NodeKind.dir), ("/sandbox/a", NodeKind.dir),
          ("/sandbox/a/b", NodeKind.dir), ("/sandbox/a/b/f", NodeKind.file)] "a/b" true).1
        "/sandbox/a/b" = none ∧
    (rm "/" "/sandbox" DENY_GLOBS ALLOW_GLOBS
        [("/sandbox", NodeKind.dir), ("/sandbox/a", NodeKind.dir),
          ("/sandbox/a/b", NodeKind.dir), ("/sandbox/a/b/f", NodeKind.file)] "a/b" true).2
      = Except.ok (pyRelpath "/" "/sandbox/a/b" "/sandbox") :=
  c7_rm_directory "/" "/sandbox" DENY_GLOBS ALLOW_GLOBS
    [("/sandbox", NodeKind.dir), ("/sandbox/a", NodeKind.dir),
      ("/sandbox/a/b", NodeKind.dir), ("/sandbox/a/b/f", NodeKind.file)]
    "a/b" "/sandbox/a/b" "/sandbox/a/b/f" NodeKind.file
    rfl rfl rfl rfl (by decide) rfl

/-- C8 counterexample to the claim as stated: when the sandbox root does not
yet exist, an operation that fails with the boundary violation `PathEscape`
has still mutated the filesystem — `ensure_root` created the root directory
before the check ran. -/
theorem c8_counterexample :
    (rm "/" "/sandbox" [] ["*"] ([] : Fs) "../x" false).2 = Except.error Err.PathEscape ∧
    (rm "/" "/sandbox" [] ["*"] ([] : Fs) "../x" false).1 ≠ ([] : Fs) :=
  ⟨rfl, by decide⟩

/-- C8 (amended): a boundary violation (`PathEscape`, `PolicyDenied`,
`FeatureDisabled`, `CommandNotAllowed`, `ArgumentPrefixViolation`) causes no
filesystem mutation beyond the idempotent creation by `ensure_root` of the sandbox
root itself: whenever the root already exists, every mutating operation that
fails with a boundary violation returns the filesystem unchanged (the
feature gate of `run` even precedes `ensure_root`). -/
theorem c8_boundary_no_mutation :
    ∀ cwd ROOT_DIR denyGlobs allowGlobs (fs : Fs),
      (lookupFs fs (pyAbspath cwd ROOT_DIR)).isSome = true →
      (∀ path cd ow fs2 e,
          write_text cwd ROOT_DIR denyGlobs allowGlobs fs path cd ow
            = (fs2, Except.error e) → isBoundary e = true → fs2 = fs) ∧
      (∀ path pa ex fs2 e,
          mkdir cwd ROOT_DIR denyGlobs allowGlobs fs path pa ex
            = (fs2, Except.error e) → isBoundary e = true → fs2 = fs) ∧
      (∀ src dst ow fs2 e,
          mv cwd ROOT_DIR denyGlobs allowGlobs fs src dst ow
            = (fs2, Except.error e) → isBoundary e = true → fs2 = fs) ∧
      (∀ path rc fs2 e,
          rm cwd ROOT_DIR denyGlobs allowGlobs fs path rc
            = (fs2, Except.error e) → isBoundary e = true → fs2 = fs) ∧
      (∀ enable allowlist cap cmd args cwdArg behavior fs2 e,
          run enable cwd ROOT_DIR allowlist denyGlobs allowGlobs cap fs cmd args cwdArg
            behavior = (fs2, Except.error e) → isBoundary e = true → fs2 = fs) := by
  intro cwd ROOT_DIR denyGlobs allowGlobs fs hroot
  have hfs1 : ensureRoot (pyAbspath cwd ROOT_DIR) fs = fs := by simp [ensureRoot, hroot]
  refine ⟨?_, ?_, ?_, ?_, ?_⟩
  · intro path cd ow fs2 e h hb
    simp only [write_text, hfs1] at h
    split at h <;> (try split at h) <;> (try split at h) <;> (try split at h) <;>
      (try split at h) <;> (try simp_all [isBoundary]) <;>
      (rw [← h.2] at hb; simp at hb)
  · intro path pa ex fs2 e h hb
    simp only [mkdir, hfs1] at h
    split at h <;> (try split at h) <;> (try split at h) <;> (try split at h) <;>
      (try split at h) <;> simp_all [isBoundary]
  · intro src dst ow fs2 e h hb
    simp only [mv, hfs1] at h
    split at h <;> (try split at h) <;> (try split at h) <;> (try split at h) <;>
      (try split at h) <;> (try simp_all [isBoundary]) <;>
      (rw [← h.2] at hb; simp at hb)
  · intro path rc fs2 e h hb
    simp only [rm, hfs1] at h
    split at h <;> (try split at h) <;> (try split at h) <;> (try split at h) <;>
      (try split at h) <;> simp_all [isBoundary]
  · intro enable allowlist cap cmd args cwdArg behavior fs2 e h hb
    simp only [run, hfs1, ite_self] at h
    split at h <;> simp_all [isBoundary]

theorem c8_boundary_no_mutation_witness :
    rm "/" "/sandbox" [] ["*"] [("/sandbox", NodeKind.dir)] "../x" false
      = ([("/sandbox", NodeKind.dir)], Except.error Err.PathEscape) ∧
    ([("/sandbox", NodeKind.dir)] : Fs) = [("/sandbox", NodeKind.dir)] :=
  ⟨rfl,
    (c8_boundary_no_mutation "/" "/sandbox" [] ["*"] [("/sandbox", NodeKind.dir)]
        (by decide)).2.2.2.1 "../x" false [("/sandbox", NodeKind.dir)] Err.PathEscape
      rfl rfl⟩
